import Mathlib

/-!
# Verification of the Ageis-AI query-orchestration engine

Shallow embedding of the core components of the multi-agent pension
assistant (`server/app/`): the role-scope resolver, the pension projection
calculator and its time-horizon parser, the content-policy gate and the
supervisor routing state machine, the visualizer growth curve, the
summarizer packaging, the retrieval relevance scoring, and the rule-based
risk fallback.  Real-number arithmetic of the Python source (floats) is
modelled over `ℚ`; machine `int`s over `ℕ`/`ℤ`; SQL rows and Python dicts
over structures with `Option` fields; the Python `x or default` idiom over
explicit falsy-default helpers.
-/

namespace AegisAI

/-! ## Python `or`-defaults

The source reads record fields as `value or default`, which substitutes the
default not only for `None` but also for the falsy values `0` and `""`.
-/

/-- `v or d` for a float column: `None` and `0` are falsy. -/
def pyOrQ (v : Option ℚ) (d : ℚ) : ℚ :=
  match v with
  | none => d
  | some x => if x = 0 then d else x

/-- `v or d` for an integer column: `None` and `0` are falsy. -/
def pyOrN (v : Option ℕ) (d : ℕ) : ℕ :=
  match v with
  | none => d
  | some x => if x = 0 then d else x

/-- `v or d` for a string column: `None` and `""` are falsy. -/
def pyOrS (v : Option String) (d : String) : String :=
  match v with
  | none => d
  | some x => if x = "" then d else x

/-- Python `str.lower()` (characterwise, which agrees with Python on the
ASCII strings involved). -/
def pyLower (s : String) : String :=
  ⟨s.data.map Char.toLower⟩

/-! ## Data model (`server/app/models.py`)

`users.id` is an autoincrement primary key and `advisor_clients.advisor_id`,
`advisor_clients.resident_id` are foreign keys into `users.id`; SQL
autoincrement ids start at 1, so in every database state the application can
produce, all referenced ids are positive.
-/

/-- A row of the `users` table (the fields the resolver reads). -/
structure UserRow where
  id : ℕ
  role : String
  deriving DecidableEq, Repr

/-- A row of the `advisor_clients` table. -/
structure AdvisorClientRow where
  advisor_id : ℕ
  resident_id : ℕ
  deriving DecidableEq, Repr

/-- The relational store, read-only to the core. -/
structure Database where
  users : List UserRow
  advisor_clients : List AdvisorClientRow
  deriving Repr

/-- `db.query(User).filter(User.id == uid).first()`. -/
def findUser (db : Database) (uid : ℕ) : Option UserRow :=
  db.users.find? (fun u => u.id == uid)

/-- Truthiness of
`db.query(AdvisorClient).filter(advisor_id == a, resident_id == r).first()`. -/
def clientPairExists (db : Database) (a r : ℕ) : Bool :=
  db.advisor_clients.any (fun p => p.advisor_id == a && p.resident_id == r)

/-- Foreign-key well-formedness: every `advisor_clients.resident_id`
references an (autoincrement, hence positive) `users.id`. -/
def DbWellFormed (db : Database) : Prop :=
  ∀ p ∈ db.advisor_clients, 0 < p.resident_id

/-! ## Role-scope resolver (`tools/tools.py`, `detect_role_based_context`)

The regex user-id extraction step (ordered patterns
`user\s+id\s+(\d+)`, …, `(\d+)` over the lowercased query) is represented by
the `original_detected` argument: `some X` when some pattern matched and
captured `X`, `none` when none matched.  The source then discards a detected
id equal to the caller's id, and dispatches on the caller's role.  The
Python guards `if detected_user_id` treat a detected id of `0` as falsy;
this is translated literally.
-/

/-- Translation of `detect_role_based_context(original_query, current_user_id, db)`
after the regex extraction step (see above).  Returns
`(target_user_id, context_type)`. -/
def detect_role_based_context (db : Database) (original_detected : Option ℕ)
    (current_user_id : ℕ) : ℕ × String :=
  match findUser db current_user_id with
  | none => (current_user_id, "unknown")
  | some current_user =>
    -- "if we found a number, make sure it's not the current user's ID"
    let detected_user_id : Option ℕ :=
      match original_detected with
      | some d => if d = current_user_id then none else some d
      | none => none
    if current_user.role = "resident" then
      (current_user_id, "self")
    else if current_user.role = "advisor" then
      match detected_user_id with
      | some d =>
        if d ≠ 0 ∧ d ≠ current_user_id then
          if clientPairExists db current_user_id d then (d, "client")
          else (current_user_id, "self")
        else (current_user_id, "self")
      | none => (current_user_id, "self")
    else if current_user.role = "regulator" then
      match detected_user_id with
      | some d => if d ≠ 0 then (d, "client") else (current_user_id, "self")
      | none => (current_user_id, "self")
    else
      (current_user_id, "unknown")

/-! ## Rule-based risk fallback (`ml_models.py`, `_fallback_risk_analysis`) -/

/-- The keys of the `user_data` dict read by the fallback scorer
(`dict.get` with the defaults from the source). -/
structure RiskUserData where
  debt_level : Option ℚ
  annual_income : Option ℚ
  volatility : Option ℚ
  portfolio_diversity_score : Option ℚ

/-- The fields of the dict returned by `_fallback_risk_analysis`. -/
structure FallbackRiskResult where
  risk_level : String
  risk_score : ℚ
  confidence : ℚ
  ml_model_used : Bool
  deriving Repr

/-- Translation of `_fallback_risk_analysis(user_data)`. -/
def fallback_risk_analysis (u : RiskUserData) : FallbackRiskResult :=
  let s0 : ℚ := 1/2
  let s1 := if u.debt_level.getD 0 > u.annual_income.getD 1 * (1/2) then s0 + 2/10 else s0
  let s2 := if u.volatility.getD (1/2) > 7/10 then s1 + 15/100 else s1
  let s3 := if u.portfolio_diversity_score.getD (1/2) < 3/10 then s2 + 1/10 else s2
  let risk_score := min s3 1
  let risk_level :=
    if risk_score < 4/10 then "Low"
    else if risk_score > 7/10 then "High"
    else "Medium"
  { risk_level := risk_level
    risk_score := risk_score
    confidence := 6/10
    ml_model_used := false }

/-! ## Retrieval relevance scoring (`tools/tools.py`)

`knowledge_base_search` (lines 735–743) appends, for each returned
`(doc, metadata, distance)` with numeric distance, a result entry whose
`relevance_score` is `1 - distance`; `query_knowledge_base` (line 1092)
reports `round(1 - distance, 3)` for the same unclamped quantity.  Neither
site applies `max(0, ·)` or any other clamp.
-/

/-- A formatted search-result entry of `knowledge_base_search`. -/
structure KBResultEntry where
  content : String
  source : String
  relevance_score : ℚ
  deriving Repr

/-- The result entry built for one `(doc, metadata, distance)` triple with a
numeric distance (`tools.py` lines 737–743). -/
def kb_search_entry (doc source : String) (distance : ℚ) : KBResultEntry :=
  { content := doc
    source := source
    relevance_score := 1 - distance }

/-! ## Time-horizon parsing (`tools/tools.py`, `parse_time_period_from_query`)

The source applies, in order, the regexes `retire\s+in\s+(\d+)\s+years?`,
`retire\s+at\s+age\s+(\d+)`, the substrings `retire early` / `retire soon`
and `retire next year`, the regex `retire\s+in\s+(\d+)\s+months?`, then a
default, over the lowercased query.  These particular regexes are
deterministic (the greedy `\s+` and `\d+` runs are followed by characters
disjoint from their classes), so `re.search` is the leftmost position where
the literal pieces, one-or-more whitespace runs and one digit run line up;
that is what the scanners below compute over the query's character list.
-/

/-- Python regex `\s` (ASCII whitespace classes). -/
def pyIsSpace (c : Char) : Bool :=
  c = ' ' || c = '\t' || c = '\n' || c = '\x0d' || c = '\x0b' || c = '\x0c'

/-- Value of a digit run, as captured by `(\d+)`. -/
def natOfDigits (ds : List Char) : ℕ :=
  ds.foldl (fun acc c => acc * 10 + (c.toNat - '0'.toNat)) 0

/-- Match one-or-more whitespace (`\s+`) at the head; return the rest. -/
def eatSpaces : List Char → Option (List Char)
  | l =>
    let rest := l.dropWhile pyIsSpace
    if l.takeWhile pyIsSpace = [] then none else some rest

/-- Match a literal at the head; return the rest. -/
def eatLit (lit : List Char) (l : List Char) : Option (List Char) :=
  if lit.isPrefixOf l then some (l.drop lit.length) else none

/-- Match `(\d+)` at the head; return the captured number and the rest. -/
def eatDigits (l : List Char) : Option (ℕ × List Char) :=
  let ds := l.takeWhile Char.isDigit
  if ds = [] then none else some (natOfDigits ds, l.dropWhile Char.isDigit)

/-- Match `retire\s+in\s+(\d+)\s+<unit>` anchored at the head of `l`
(`<unit>` is `year` or `month`; the regex's trailing `s?` never affects
whether a match exists). -/
def matchRetireNum (unit : List Char) (l : List Char) : Option ℕ := do
  let l ← eatLit "retire".toList l
  let l ← eatSpaces l
  let l ← eatLit "in".toList l
  let l ← eatSpaces l
  let (n, l) ← eatDigits l
  let l ← eatSpaces l
  let _ ← eatLit unit l
  pure n

/-- Match `retire\s+at\s+age\s+(\d+)` anchored at the head of `l`. -/
def matchRetireAtAge (l : List Char) : Option ℕ := do
  let l ← eatLit "retire".toList l
  let l ← eatSpaces l
  let l ← eatLit "at".toList l
  let l ← eatSpaces l
  let l ← eatLit "age".toList l
  let l ← eatSpaces l
  let (n, _) ← eatDigits l
  pure n

/-- `re.search` for an anchored matcher: try each position left to right. -/
def searchFor (m : List Char → Option ℕ) : List Char → Option ℕ
  | [] => m []
  | l@(_ :: rest) =>
    match m l with
    | some n => some n
    | none => searchFor m rest

/-- Substring containment (Python `pat in text`). -/
def containsSub (pat : List Char) : List Char → Bool
  | [] => pat.isPrefixOf ([] : List Char)
  | l@(_ :: rest) => pat.isPrefixOf l || containsSub pat rest

/-- Translation of `parse_time_period_from_query(query, current_age,
retirement_age)`.  The months branch returns a fractional number of years,
so the result lives in `ℚ`. -/
def parse_time_period_from_query (query : String) (current_age retirement_age : ℤ) : ℚ :=
  let query_lower := query.toList.map Char.toLower
  -- Pattern 1: "retire in X years"
  match searchFor (matchRetireNum "year".toList) query_lower with
  | some years => (years : ℚ)
  | none =>
  -- Pattern 2: "retire at age X"
  match searchFor matchRetireAtAge query_lower with
  | some target_age => ((max 0 ((target_age : ℤ) - current_age) : ℤ) : ℚ)
  | none =>
  -- Pattern 3: "retire early" or "retire soon"
  if containsSub "retire early".toList query_lower
      || containsSub "retire soon".toList query_lower then
    ((min 5 (retirement_age - current_age) : ℤ) : ℚ)
  -- Pattern 4: "retire next year"
  else if containsSub "retire next year".toList query_lower then
    1
  else
  -- Pattern 5: "retire in X months"
  match searchFor (matchRetireNum "month".toList) query_lower with
  | some months => max (1/10) ((months : ℚ) / 12)
  | none =>
  -- Default: full years to retirement
    ((retirement_age - current_age : ℤ) : ℚ)

/-! ## Pension projection (`tools/tools.py`, `project_pension`)

The embedded calculator takes the record row and the parsed time horizon in
whole years (`years : ℕ`); every integer-horizon path of the source is
covered (only the "retire in N months" parse can produce a fractional
horizon, whose `(1+r)**n` has no exact rational meaning).
-/

/-- The columns of a `pension_data` row read by `project_pension`. -/
structure PensionRow where
  current_savings : Option ℚ
  annual_income : Option ℚ
  age : Option ℕ
  retirement_age_goal : Option ℕ
  contribution_amount : Option ℚ
  employer_contribution : Option ℚ
  pension_type : Option String
  annual_return_rate : Option ℚ
  projected_pension_amount : Option ℚ

/-- `raw_return_rate = pension_data.annual_return_rate or 0.08` — note the
Python `or` also replaces a stored rate of exactly `0` by the default. -/
def raw_return_rate (row : PensionRow) : ℚ :=
  pyOrQ row.annual_return_rate (8/100)

/-- "Normalize return rate": `raw / 100` when `raw > 1.0`, else `raw`. -/
def normalized_return_rate (row : PensionRow) : ℚ :=
  let raw := raw_return_rate row
  if raw > 1 then raw / 100 else raw

/-- The tiered rate cap of the Defined Contribution branch: 6% beyond 20
years, 7% beyond 10 years, otherwise the stored (normalized) rate. -/
def dc_effective_rate (annual_return_rate : ℚ) (years : ℕ) : ℚ :=
  if (years : ℚ) > 20 then min annual_return_rate (6/100)
  else if (years : ℚ) > 10 then min annual_return_rate (7/100)
  else annual_return_rate

/-- Outputs of the Defined Contribution branch of `project_pension`
(lines 452–490). -/
structure DCProjection where
  effective_return_rate : ℚ
  fv_current : ℚ
  fv_contributions : ℚ
  max_reasonable_projection : ℚ
  projected_balance : ℚ
  scenario_10_percent : ℚ
  scenario_20_percent : ℚ
  cap_hit : Bool
  deriving Repr

/-- Translation of the `years_to_retirement > 0` arm of the Defined
Contribution branch. -/
def dc_projection (current_savings total_annual_contribution annual_return_rate : ℚ)
    (years : ℕ) : DCProjection :=
  let effective_return_rate := dc_effective_rate annual_return_rate years
  let fv_current := current_savings * (1 + effective_return_rate) ^ years
  let fv_contributions :=
    if total_annual_contribution > 0 then
      total_annual_contribution * ((1 + effective_return_rate) ^ years - 1) / effective_return_rate
    else 0
  let raw := fv_current + fv_contributions
  let max_reasonable_multiplier := min (10 : ℚ) ((years : ℚ) * (1/2))
  let max_reasonable_projection := current_savings * max_reasonable_multiplier
  let projected_balance :=
    if raw > max_reasonable_projection then max_reasonable_projection else raw
  { effective_return_rate := effective_return_rate
    fv_current := fv_current
    fv_contributions := fv_contributions
    max_reasonable_projection := max_reasonable_projection
    projected_balance := projected_balance
    scenario_10_percent := min (projected_balance * (11/10)) (max_reasonable_projection * (11/10))
    scenario_20_percent := min (projected_balance * (12/10)) (max_reasonable_projection * (12/10))
    cap_hit := raw > max_reasonable_projection }

/-- The projection numbers of the `project_pension` response. -/
structure ProjectionResult where
  years_to_retirement : ℕ
  annual_return_rate : ℚ
  projected_balance : ℚ
  scenario_10_percent : ℚ
  scenario_20_percent : ℚ
  deriving Repr

/-- The lowercased pension-type lists of the source's branch dispatch. -/
def dcTypeNames : List String := ["defined contribution", "dc", "defined contribution plan"]

def dbTypeNames : List String := ["defined benefit", "db", "defined benefit plan"]

/-- Translation of the pension-type dispatch of `project_pension`
(lines 449–519), on a record row and a whole-year horizon. -/
def project_pension_calc (row : PensionRow) (years : ℕ) : ProjectionResult :=
  let current_savings := pyOrQ row.current_savings 0
  let annual_income := pyOrQ row.annual_income 0
  let annual_contribution := pyOrQ row.contribution_amount 0
  let employer_contribution := pyOrQ row.employer_contribution 0
  let total_annual_contribution := annual_contribution + employer_contribution
  let pension_type := pyOrS row.pension_type "Defined Contribution"
  let annual_return_rate := normalized_return_rate row
  if pyLower pension_type ∈ dcTypeNames then
    if (years : ℚ) > 0 then
      let dc := dc_projection current_savings total_annual_contribution annual_return_rate years
      { years_to_retirement := years
        annual_return_rate := annual_return_rate
        projected_balance := dc.projected_balance
        scenario_10_percent := dc.scenario_10_percent
        scenario_20_percent := dc.scenario_20_percent }
    else
      { years_to_retirement := years
        annual_return_rate := annual_return_rate
        projected_balance := current_savings
        scenario_10_percent := current_savings
        scenario_20_percent := current_savings }
  else if pyLower pension_type ∈ dbTypeNames then
    let projected_balance :=
      match row.projected_pension_amount with
      | some p => if p = 0 then annual_income * (6/10) else p
      | none => annual_income * (6/10)
    { years_to_retirement := years
      annual_return_rate := annual_return_rate
      projected_balance := projected_balance
      scenario_10_percent := projected_balance
      scenario_20_percent := projected_balance }
  else
    if (years : ℚ) > 0 then
      let conservative_return := min (annual_return_rate * (8/10)) (6/100)
      let raw := current_savings * (1 + conservative_return) ^ years
      let max_reasonable := current_savings * min (8 : ℚ) ((years : ℚ) * (4/10))
      let projected_balance := if raw > max_reasonable then max_reasonable else raw
      { years_to_retirement := years
        annual_return_rate := annual_return_rate
        projected_balance := projected_balance
        scenario_10_percent := min (projected_balance * (11/10)) (max_reasonable * (11/10))
        scenario_20_percent := min (projected_balance * (12/10)) (max_reasonable * (12/10)) }
    else
      { years_to_retirement := years
        annual_return_rate := annual_return_rate
        projected_balance := current_savings
        scenario_10_percent := current_savings
        scenario_20_percent := current_savings }

/-! ## Visualizer growth curve (`agents/visualizer_agent.py`, lines 149–209)

The visualizer rebuilds the pension-growth series itself.  Its in-code
comments say "Generate corrected data points using the SAME formula as
projection tool … This should match exactly", but line 152 hardcodes
`annual_return_rate = 0.091` instead of the record's rate, and no cap is
applied.  Each emitted point is `round(value, 2)`; the rounding perturbs a
point by less than `1/100` and is immaterial to the bounds proved below.
The savings and contribution inputs are parsed back from the tool's
`£{x:,.0f}` strings, which is exact for whole-pound amounts such as the
ones used in the theorems. -/

/-- Value of the visualizer's growth curve at `year` years from now. -/
def visualizer_growth_value (current_savings annual_contribution : ℚ) (year : ℕ) : ℚ :=
  if year = 0 then current_savings
  else
    let annual_return_rate : ℚ := 91/1000
    let fv_current_savings := current_savings * (1 + annual_return_rate) ^ year
    let fv_contributions :=
      if annual_return_rate > 0 then
        annual_contribution * (((1 + annual_return_rate) ^ year - 1) / annual_return_rate)
      else annual_contribution * (year : ℚ)
    fv_current_savings + fv_contributions

/-! ## Content-policy gate (`workflow.py`, `supervisor_node` lines 157–188)

Every blocklist pattern is of the form `\b(alt₁|alt₂|…)\b` where each
alternative is a word or a space-separated phrase of word characters, plus
the single left-anchored pattern `\bpolitic\w*\b` (whose `\w*\b` tail is
always satisfiable at the end of the word-character run, so it matches
exactly when `politic` occurs with a left word boundary).  `re.search` of
such a pattern succeeds iff some alternative occurs in the text flanked by
word boundaries; the matcher below decides exactly that over the lowercased
query's character list. -/

/-- Python regex `\w` over ASCII. -/
def isWordChar (c : Char) : Bool :=
  c.isAlphanum || c = '_'

/-- A non-word (or absent) character on the left makes a `\b` boundary. -/
def leftBoundary (prev : Option Char) : Bool :=
  match prev with
  | none => true
  | some c => !isWordChar c

/-- A non-word (or absent) character after the alternative makes a `\b`
boundary on the right. -/
def rightBoundary : List Char → Bool
  | [] => true
  | c :: _ => !isWordChar c

/-- Does `alt` occur starting exactly here, flanked by word boundaries
(`checkRight := false` drops the right-boundary test, for `politic\w*`)? -/
def occursHere (checkRight : Bool) (alt : List Char) (prev : Option Char)
    (text : List Char) : Bool :=
  alt.isPrefixOf text && leftBoundary prev && (!checkRight || rightBoundary (text.drop alt.length))

/-- Does `alt` occur anywhere in `text` flanked by word boundaries?
(`prev` is the character just before the current position.) -/
def hasWordOccur (checkRight : Bool) (alt : List Char) : Option Char → List Char → Bool
  | prev, [] => occursHere checkRight alt prev []
  | prev, c :: rest =>
    occursHere checkRight alt prev (c :: rest) || hasWordOccur checkRight alt (some c) rest

/-- `re.search(r'\b(alt₁|…)\b', text)` truthiness. -/
def regexWordAlts (alts : List String) (text : List Char) : Bool :=
  alts.any (fun a => hasWordOccur true a.toList none text)

/-- The `religious` pattern group of `blocked_patterns`. -/
def religiousBlocked (text : List Char) : Bool :=
  regexWordAlts ["pray", "prayer", "god", "jesus", "allah", "buddha", "hindu", "islam",
    "christian", "jewish", "religious", "spiritual", "faith", "blessing", "divine",
    "heaven", "hell"] text
  || regexWordAlts ["amen", "hallelujah", "om", "namaste", "shalom", "salaam"] text
  || regexWordAlts ["church", "mosque", "temple", "synagogue", "worship", "meditation"] text

/-- The `political` pattern group of `blocked_patterns` (the last pattern is
`\bpolitic\w*\b`). -/
def politicalBlocked (text : List Char) : Bool :=
  regexWordAlts ["democrat", "republican", "liberal", "conservative", "left", "right",
    "wing", "party", "election", "vote", "campaign", "politician", "senator",
    "congress", "president"] text
  || regexWordAlts ["government", "administration", "policy", "legislation", "bill",
    "law", "regulation"] text
  || regexWordAlts ["progressive", "moderate", "radical", "extremist", "activist",
    "protest", "rally"] text
  || hasWordOccur false "politic".toList none text

/-- The `investment_strategy` pattern group of `blocked_patterns`. -/
def investmentBlocked (text : List Char) : Bool :=
  regexWordAlts ["buy", "sell", "hold", "stock", "shares", "equity", "market", "timing",
    "entry", "exit", "position", "portfolio", "allocation"] text
  || regexWordAlts ["day trading", "swing trading", "momentum", "value", "growth",
    "dividend", "yield"] text
  || regexWordAlts ["cryptocurrency", "bitcoin", "ethereum", "blockchain", "ico",
    "token", "coin"] text
  || regexWordAlts ["real estate", "property", "mortgage", "loan", "credit", "debt",
    "leverage"] text
  || regexWordAlts ["hedge fund", "private equity", "venture capital", "startup",
    "ipo", "merger", "acquisition"] text

/-- `should_block`: some pattern of some category matches the lowercased
query. -/
def contentGateBlocks (query : String) : Bool :=
  let text := query.toList.map Char.toLower
  religiousBlocked text || politicalBlocked text || investmentBlocked text

/-! ## Workflow state machine (`workflow.py`)

The graph is `supervisor → {risk_analyst, fraud_detector,
projection_specialist, visualizer, summarizer, FINISH}` with back-edges
from the three specialists and the visualizer to the supervisor, and
`summarizer → END`.  The LLM-driven parts are environment nondeterminism:
the router chain's choice, the supervisor's keyword `should_visualize`
flag, the steps a specialist appends and whether the visualizer produces
chart data are universally quantified in the step relation, so the proved
invariants hold for every behaviour of those components. -/

/-- One `(action, observation)` entry of `intermediate_steps`: the tool name
and the tagged fields of the observation that the claims mention. -/
structure ToolStep where
  tool : String
  search_type : Option String
  pdf_status : Option String
  data_source : Option String
  deriving DecidableEq, Repr

/-- The `final_response` dict.  The summarizer builds it with exactly the
keys `summary`, `charts`, `plotly_figs`, `chart_images`; an absent key is
`none` here (matching `final_response.get(...)` returning `None` in
`main.py`).  Chart dicts are represented by their key lists. -/
structure FinalResponse where
  summary : String
  charts : List String
  plotly_figs : List String
  chart_images : List String
  data_source : Option String
  search_type : Option String
  pdf_status : Option String
  deriving DecidableEq, Repr

/-- The guardrail refusal text of `supervisor_node`. -/
def guardrail_text : String :=
  "I apologize, but I cannot process this request. I am a pension analysis system designed to help with: pension projections and calculations, risk assessment and portfolio analysis, fraud detection and transaction monitoring, financial data visualization. I cannot provide advice on religious matters, political topics, or specific investment strategies. Please rephrase your question to focus on pension analysis, risk assessment, or fraud detection."

/-- The prepared refusal response returned by the supervisor's guardrail
branch (empty chart dicts, no tagged fields). -/
def guardrail_response : FinalResponse :=
  { summary := guardrail_text
    charts := []
    plotly_figs := []
    chart_images := []
    data_source := none
    search_type := none
    pdf_status := none }

/-- The graph nodes, plus a `terminal` pseudo-node for `END`. -/
inductive WFNode
  | supervisor
  | risk_analyst
  | fraud_detector
  | projection_specialist
  | visualizer
  | summarizer
  | terminal
  deriving DecidableEq, Repr

/-- The routing values the supervisor can emit (the `Router` literal of
`agents/supervisor.py` plus `FINISH`). -/
inductive NextTarget
  | risk_analyst
  | fraud_detector
  | projection_specialist
  | summarizer
  | visualizer
  | FINISH
  deriving DecidableEq, Repr

/-- The workflow state fields the claims are about.  `hasVizData` is the
truthiness of `charts or plotly_figs or chart_images`. -/
structure WFState where
  node : WFNode
  steps : List ToolStep
  turns : ℕ
  hasVizData : Bool
  finalResponse : Option FinalResponse
  deriving Repr

/-- The partial state returned by `supervisor_node` (a dict without a
`turns` key is modelled by returning the old value). -/
structure SupervisorResult where
  next : NextTarget
  turns : ℕ
  final_response : Option FinalResponse
  deriving Repr

/-- Translation of `supervisor_node(state)`.  `blocked` is the content-gate
verdict on the run's query, `shouldVisualize` the keyword-scan verdict of
the re-entry branch, and `routerChoice` the value the LLM router chain
produced (`none` models a falsy `next_value`). -/
def supervisor_node (blocked shouldVisualize : Bool) (routerChoice : Option NextTarget)
    (s : WFState) : SupervisorResult :=
  if s.hasVizData then
    { next := .summarizer, turns := s.turns, final_response := none }
  else if !s.steps.isEmpty then
    { next := if shouldVisualize then .visualizer else .summarizer
      turns := s.turns
      final_response := none }
  else if blocked then
    { next := .FINISH, turns := s.turns, final_response := some guardrail_response }
  else
    let new_turns := s.turns + 1
    let next_value :=
      if 5 ≤ new_turns then NextTarget.FINISH
      else match routerChoice with
        | some r => r
        | none => .FINISH
    { next := next_value, turns := new_turns, final_response := none }

/-- Merge a supervisor result into the state and move to the routed node
(the conditional edge maps `FINISH` to `END`). -/
def applySupervisor (r : SupervisorResult) (s : WFState) : WFState :=
  { s with
    node :=
      match r.next with
      | .FINISH => .terminal
      | .risk_analyst => .risk_analyst
      | .fraud_detector => .fraud_detector
      | .projection_specialist => .projection_specialist
      | .summarizer => .summarizer
      | .visualizer => .visualizer
    turns := r.turns
    finalResponse :=
      match r.final_response with
      | some fr => some fr
      | none => s.finalResponse }

/-- One transition of the compiled graph.  Specialists append an arbitrary
list of `(action, observation)` steps; the visualizer may or may not add
chart data; the summarizer emits some final response and the run ends. -/
inductive WFStep (blocked : Bool) : WFState → WFState → Prop
  | supervise (s : WFState) (shouldVisualize : Bool) (routerChoice : Option NextTarget)
      (h : s.node = .supervisor) :
      WFStep blocked s (applySupervisor (supervisor_node blocked shouldVisualize routerChoice s) s)
  | risk (s : WFState) (newSteps : List ToolStep) (h : s.node = .risk_analyst) :
      WFStep blocked s { s with node := .supervisor, steps := s.steps ++ newSteps }
  | fraud (s : WFState) (newSteps : List ToolStep) (h : s.node = .fraud_detector) :
      WFStep blocked s { s with node := .supervisor, steps := s.steps ++ newSteps }
  | projection (s : WFState) (newSteps : List ToolStep) (h : s.node = .projection_specialist) :
      WFStep blocked s { s with node := .supervisor, steps := s.steps ++ newSteps }
  | visualize (s : WFState) (newViz : Bool) (h : s.node = .visualizer) :
      WFStep blocked s { s with node := .supervisor, hasVizData := s.hasVizData || newViz }
  | summarize (s : WFState) (fr : FinalResponse) (h : s.node = .summarizer) :
      WFStep blocked s { s with node := .terminal, finalResponse := some fr }

/-- The state a run starts in (`graph.invoke` with the user message):
entry point `supervisor`, no steps, `turns = 0`, no chart data. -/
def initState : WFState :=
  { node := .supervisor, steps := [], turns := 0, hasVizData := false, finalResponse := none }

/-- States reachable in a run whose query has gate verdict `blocked`. -/
def WFReachable (blocked : Bool) (s : WFState) : Prop :=
  Relation.ReflTransGen (WFStep blocked) initState s

/-! ## Summarizer (`agents/summarizer_agent.py`, `summarizer_with_charts`)

The summarizer consumes the state and an LLM-produced summary text (here
the `summary_text` argument, standing for the guardrail-filtered LLM
output, which is an opaque string as far as the packaging is concerned) and
builds `final_response`. -/

/-- The state fields `summarizer_with_charts` reads. -/
structure SummarizerState where
  steps : List ToolStep
  charts : List String
  plotly_figs : List String
  chart_images : List String

/-- Translation of the `final_response` construction of
`summarizer_with_charts` (lines 85–90): exactly the four keys `summary`,
`charts`, `plotly_figs`, `chart_images` are set. -/
def summarizer_with_charts (summary_text : String) (st : SummarizerState) : FinalResponse :=
  { summary := summary_text
    charts := st.charts
    plotly_figs := st.plotly_figs
    chart_images := st.chart_images
    data_source := none
    search_type := none
    pdf_status := none }

/-- The tagged fields of a successful `query_knowledge_base` observation
(`tools.py` lines 1096–1112). -/
def query_knowledge_base_success_step : ToolStep :=
  { tool := "query_knowledge_base"
    search_type := some "PDF_DOCUMENT_SEARCH"
    pdf_status := some "PDFS_FOUND_AND_SEARCHED"
    data_source := none }

/-! ## Concrete fixtures (the spec's end-to-end scenario 1) -/

/-- The Defined Contribution record of scenario 1: age 33, goal 65, savings
50 000, income 80 000, total annual contribution 8 000, stored rate 0.08. -/
def scenario1Row : PensionRow :=
  { current_savings := some 50000
    annual_income := some 80000
    age := some 33
    retirement_age_goal := some 65
    contribution_amount := some 8000
    employer_contribution := some 0
    pension_type := some "Defined Contribution"
    annual_return_rate := some (8/100)
    projected_pension_amount := none }

/-- `scenario1Row` with a stored annual return rate of exactly `0`. -/
def rate0Row : PensionRow :=
  { scenario1Row with annual_return_rate := some 0 }

/-- The scenario-1 query. -/
def scenario1Query : String := "How much will my pension be if I retire in 10 years?"

/-! ## A non-terminating lasso of the workflow

Only the supervisor's first-pass branch (empty `intermediate_steps`)
increments `turns` or checks the budget; the re-entry branches return the
old counter.  A gate-passing query containing `plot` (or a bare `show`)
makes the re-entry keyword scan route to the visualizer
(`workflow.py` lines 112–127), while the visualizer's own keyword list
(`visualizer_agent.py` line 67: `graph|chart|visual|show me|display`, and
`wants_charts` is never written) misses it; with only
`query_knowledge_base` data in the trace the visualizer then builds empty
chart dicts, returns no `charts`/`plotly_figs`/`chart_images` keys, and
control cycles supervisor → visualizer forever with `turns` frozen.  The
two states below are the lasso's knot. -/

/-- The re-entry supervisor state of the lasso: one retrieval step
recorded, no chart data, `turns` already at 1 from the first pass. -/
def loopSupervisorState : WFState :=
  { node := WFNode.supervisor
    steps := [query_knowledge_base_success_step]
    turns := 1
    hasVizData := false
    finalResponse := none }

/-- The visualizer state the supervisor routes to from
`loopSupervisorState` when the re-entry keyword scan fires. -/
def loopVisualizerState : WFState :=
  { node := WFNode.visualizer
    steps := [query_knowledge_base_success_step]
    turns := 1
    hasVizData := false
    finalResponse := none }

/-! ## Workflow invariants -/

/-- Turn-budget invariant: at most 5 at terminal states and at most 4 at
every live node (a supervisor entry can add one and then forces FINISH at
five). -/
def TurnsInv (s : WFState) : Prop :=
  (s.node = WFNode.terminal → s.turns ≤ 5) ∧ (s.node ≠ WFNode.terminal → s.turns ≤ 4)

/-- Invariant of a run whose query the content gate blocks: no steps, no
chart data, and control never leaves the supervisor except to terminate. -/
def BlockedInv (s : WFState) : Prop :=
  s.steps = [] ∧ s.hasVizData = false ∧
    (s.node = WFNode.supervisor ∨ s.node = WFNode.terminal)

/-! # Theorems -/

theorem applySupervisor_turns (r : SupervisorResult) (s : WFState) :
    (applySupervisor r s).turns = r.turns := rfl

theorem applySupervisor_steps (r : SupervisorResult) (s : WFState) :
    (applySupervisor r s).steps = s.steps := rfl

theorem applySupervisor_hasVizData (r : SupervisorResult) (s : WFState) :
    (applySupervisor r s).hasVizData = s.hasVizData := rfl

theorem applySupervisor_node_terminal (r : SupervisorResult) (s : WFState) :
    (applySupervisor r s).node = WFNode.terminal ↔ r.next = NextTarget.FINISH := by
  obtain ⟨next, turns, fr⟩ := r
  cases next <;> simp [applySupervisor]

theorem supervisor_node_turns_le (blocked shouldVisualize : Bool)
    (routerChoice : Option NextTarget) (s : WFState) (h : s.turns ≤ 4) :
    (supervisor_node blocked shouldVisualize routerChoice s).turns ≤ 5 := by
  unfold supervisor_node
  split_ifs <;> dsimp only <;> omega

theorem supervisor_node_turns_le_of_live (blocked shouldVisualize : Bool)
    (routerChoice : Option NextTarget) (s : WFState) (h : s.turns ≤ 4)
    (hne : (supervisor_node blocked shouldVisualize routerChoice s).next ≠ NextTarget.FINISH) :
    (supervisor_node blocked shouldVisualize routerChoice s).turns ≤ 4 := by
  unfold supervisor_node at *
  split_ifs at * <;> dsimp only at * <;> try omega
  by_cases h5 : 5 ≤ s.turns + 1
  · rw [if_pos h5] at hne
    exact absurd rfl hne
  · omega

theorem wfstep_preserves_turnsInv {blocked : Bool} {s t : WFState}
    (hst : WFStep blocked s t) (hs : TurnsInv s) : TurnsInv t := by
  obtain ⟨hterm, hlive⟩ := hs
  cases hst with
  | supervise shouldVisualize routerChoice hn =>
    have h4 : s.turns ≤ 4 := hlive (by rw [hn]; simp)
    constructor
    · intro _
      rw [applySupervisor_turns]
      exact supervisor_node_turns_le blocked shouldVisualize routerChoice s h4
    · intro hne
      rw [applySupervisor_turns]
      refine supervisor_node_turns_le_of_live blocked shouldVisualize routerChoice s h4 ?_
      intro hfin
      exact hne ((applySupervisor_node_terminal _ s).2 hfin)
  | risk newSteps hn =>
    have h4 : s.turns ≤ 4 := hlive (by rw [hn]; simp)
    exact ⟨by intro h; simp at h, fun _ => h4⟩
  | fraud newSteps hn =>
    have h4 : s.turns ≤ 4 := hlive (by rw [hn]; simp)
    exact ⟨by intro h; simp at h, fun _ => h4⟩
  | projection newSteps hn =>
    have h4 : s.turns ≤ 4 := hlive (by rw [hn]; simp)
    exact ⟨by intro h; simp at h, fun _ => h4⟩
  | visualize newViz hn =>
    have h4 : s.turns ≤ 4 := hlive (by rw [hn]; simp)
    exact ⟨by intro h; simp at h, fun _ => h4⟩
  | summarize fr hn =>
    have h4 : s.turns ≤ 4 := hlive (by rw [hn]; simp)
    exact ⟨fun _ => Nat.le_succ_of_le h4, by intro h; simp at h⟩

theorem reachable_turnsInv {blocked : Bool} {s : WFState}
    (h : WFReachable blocked s) : TurnsInv s := by
  unfold WFReachable at h
  induction h with
  | refl =>
    exact ⟨by intro h; simp [initState] at h, fun _ => by simp [initState]⟩
  | tail _ hstep ih => exact wfstep_preserves_turnsInv hstep ih

/-- Claim C2 (amended): in the workflow state machine of `workflow.py`,
every reachable terminal state has `turns ≤ 5` — for every behaviour of
the LLM router, the specialists and the visualizer.  The supervisor
increments `turns` only on first-pass entries (empty `intermediate_steps`)
and there overrides the routed target with FINISH as soon as the
incremented counter reaches 5, so the budget bound holds of every run that
terminates; it is not a termination guarantee (see the reachable
non-incrementing supervisor→visualizer cycle of `claim_C2_counterexample`). -/
theorem claim_C2_turn_budget (blocked : Bool) (s : WFState)
    (hreach : WFReachable blocked s) (hterm : s.node = WFNode.terminal) :
    s.turns ≤ 5 :=
  (reachable_turnsInv hreach).1 hterm

/-- Witness for C2: the guardrail run reaches a terminal state in one step,
and its turn counter is within the budget. -/
theorem claim_C2_turn_budget_witness :
    (applySupervisor (supervisor_node true false none initState) initState).turns ≤ 5 :=
  claim_C2_turn_budget true _
    (Relation.ReflTransGen.single (WFStep.supervise initState false none rfl))
    (by decide)

/-- Claim C2 counterexample: the conjunct "the supervisor increments turns
on entry and routes to FINISH once the budget is reached, so no run loops
forever" is false of the code.  In a gate-passing run, a reachable
re-entry state (one tool step recorded, no chart data) steps to the
visualizer and back to itself — the visualizer having produced no chart
data — with the turn counter unchanged, so the run can cycle between the
two live states forever and the turn budget never fires. -/
theorem claim_C2_counterexample :
    WFReachable false loopSupervisorState ∧
    WFStep false loopSupervisorState loopVisualizerState ∧
    WFStep false loopVisualizerState loopSupervisorState ∧
    loopSupervisorState.node ≠ WFNode.terminal ∧
    loopVisualizerState.node ≠ WFNode.terminal ∧
    loopVisualizerState.turns = loopSupervisorState.turns := by
  refine ⟨?_, ?_, ?_, by decide, by decide, rfl⟩
  · have h1 : WFStep false initState
        (applySupervisor
          (supervisor_node false false (some NextTarget.projection_specialist) initState)
          initState) :=
      WFStep.supervise initState false (some NextTarget.projection_specialist) rfl
    have h2 : WFStep false
        (applySupervisor
          (supervisor_node false false (some NextTarget.projection_specialist) initState)
          initState)
        loopSupervisorState :=
      WFStep.projection
        (applySupervisor
          (supervisor_node false false (some NextTarget.projection_specialist) initState)
          initState)
        [query_knowledge_base_success_step] rfl
    exact Relation.ReflTransGen.tail (Relation.ReflTransGen.single h1) h2
  · exact WFStep.supervise loopSupervisorState true none rfl
  · exact WFStep.visualize loopVisualizerState false rfl

theorem wfstep_true_preserves_blockedInv {s t : WFState}
    (hst : WFStep true s t) (hs : BlockedInv s) : BlockedInv t := by
  obtain ⟨hsteps, hviz, hnode⟩ := hs
  cases hst with
  | supervise shouldVisualize routerChoice hn =>
    refine ⟨by rw [applySupervisor_steps]; exact hsteps,
      by rw [applySupervisor_hasVizData]; exact hviz, Or.inr ?_⟩
    rw [applySupervisor_node_terminal]
    simp [supervisor_node, hviz, hsteps]
  | risk newSteps hn =>
    rcases hnode with h | h <;> rw [hn] at h <;> simp at h
  | fraud newSteps hn =>
    rcases hnode with h | h <;> rw [hn] at h <;> simp at h
  | projection newSteps hn =>
    rcases hnode with h | h <;> rw [hn] at h <;> simp at h
  | visualize newViz hn =>
    rcases hnode with h | h <;> rw [hn] at h <;> simp at h
  | summarize fr hn =>
    rcases hnode with h | h <;> rw [hn] at h <;> simp at h

theorem reachable_blockedInv {s : WFState} (h : WFReachable true s) : BlockedInv s := by
  unfold WFReachable at h
  induction h with
  | refl => exact ⟨rfl, rfl, Or.inl rfl⟩
  | tail _ hstep ih => exact wfstep_true_preserves_blockedInv hstep ih

/-- Claim C3: if the content-policy blocklist matches the input query, the
supervisor's first entry (on the initial state) returns `next = FINISH`
together with the prepared refusal response, and in every reachable state
of that run `intermediate_steps` is empty and control is only ever at the
supervisor or terminated — so no tool is ever invoked. -/
theorem claim_C3_gate_short_circuit (query : String)
    (hblock : contentGateBlocks query = true) :
    (∀ (shouldVisualize : Bool) (routerChoice : Option NextTarget),
        supervisor_node (contentGateBlocks query) shouldVisualize routerChoice initState =
          { next := NextTarget.FINISH, turns := 0, final_response := some guardrail_response }) ∧
    (∀ s, WFReachable (contentGateBlocks query) s →
        s.steps = [] ∧ (s.node = WFNode.supervisor ∨ s.node = WFNode.terminal)) := by
  rw [hblock]
  constructor
  · intro shouldVisualize routerChoice
    rfl
  · intro s hs
    exact ⟨(reachable_blockedInv hs).1, (reachable_blockedInv hs).2.2⟩

/-- Witness for C3 at the spec's policy-violation query, whose `pray`
matches the religious blocklist. -/
theorem claim_C3_gate_short_circuit_witness :
    (∀ (shouldVisualize : Bool) (routerChoice : Option NextTarget),
        supervisor_node (contentGateBlocks "Should I pray before investing?")
            shouldVisualize routerChoice initState =
          { next := NextTarget.FINISH, turns := 0, final_response := some guardrail_response }) ∧
    (∀ s, WFReachable (contentGateBlocks "Should I pray before investing?") s →
        s.steps = [] ∧ (s.node = WFNode.supervisor ∨ s.node = WFNode.terminal)) :=
  claim_C3_gate_short_circuit "Should I pray before investing?" (by decide)

theorem clientPairExists_resident_zero (db : Database) (hwf : DbWellFormed db) (a : ℕ) :
    clientPairExists db a 0 = false := by
  rw [clientPairExists]
  by_contra h
  rw [Bool.not_eq_false, List.any_eq_true] at h
  obtain ⟨p, hp, hpe⟩ := h
  rw [Bool.and_eq_true, beq_iff_eq, beq_iff_eq] at hpe
  have hpos := hwf p hp
  omega

/-- Claim C1: for a caller that exists in the database with role `advisor`
and a query from which the resolver extracts an id `X` different from the
caller's, `detect_role_based_context` returns `(X, "client")` exactly when
an `AdvisorClient(advisor_id = caller, resident_id = X)` row exists, and
`(caller, "self")` otherwise.  The database well-formedness hypothesis
(resident ids in `advisor_clients` are positive) reflects the foreign keys
into the autoincrement `users.id` column and rules out the vacuous `X = 0`
truthiness corner of the Python guard. -/
theorem claim_C1_advisor_scope (db : Database) (caller X : ℕ) (u : UserRow)
    (hwf : DbWellFormed db)
    (hfind : findUser db caller = some u)
    (hrole : u.role = "advisor")
    (hne : X ≠ caller) :
    (detect_role_based_context db (some X) caller = (X, "client")
        ↔ clientPairExists db caller X = true) ∧
    (clientPairExists db caller X = false →
        detect_role_based_context db (some X) caller = (caller, "self")) := by
  unfold detect_role_based_context
  rw [hfind]
  dsimp only
  rw [if_neg hne, hrole]
  rw [if_neg (by decide : ¬ ("advisor" : String) = "resident"), if_pos rfl]
  dsimp only
  by_cases hX0 : X = 0
  · subst hX0
    rw [if_neg (by simp)]
    rw [clientPairExists_resident_zero db hwf caller]
    refine ⟨⟨fun h => ?_, fun h => by cases h⟩, fun _ => rfl⟩
    have := congrArg Prod.snd h
    simp at this
  · rw [if_pos ⟨hX0, hne⟩]
    cases hpair : clientPairExists db caller X
    · rw [if_neg (by simp [hpair])]
      refine ⟨⟨fun h => ?_, fun h => by cases h⟩, fun _ => rfl⟩
      have := congrArg Prod.snd h
      simp at this
    · rw [if_pos (by simp [hpair])]
      exact ⟨⟨fun _ => rfl, fun _ => rfl⟩, fun h => by cases h⟩

/-- Witness for C1: advisor 1001 with client 202 extracting id 202 is
resolved to `(202, "client")`; without the pair the resolver would fall
back to `(1001, "self")`. -/
theorem claim_C1_advisor_scope_witness :
    (detect_role_based_context
          ⟨[⟨1001, "advisor"⟩, ⟨202, "resident"⟩], [⟨1001, 202⟩]⟩ (some 202) 1001
        = (202, "client")
      ↔ clientPairExists ⟨[⟨1001, "advisor"⟩, ⟨202, "resident"⟩], [⟨1001, 202⟩]⟩ 1001 202
        = true) ∧
    (clientPairExists ⟨[⟨1001, "advisor"⟩, ⟨202, "resident"⟩], [⟨1001, 202⟩]⟩ 1001 202
        = false →
      detect_role_based_context
          ⟨[⟨1001, "advisor"⟩, ⟨202, "resident"⟩], [⟨1001, 202⟩]⟩ (some 202) 1001
        = (1001, "self")) :=
  claim_C1_advisor_scope ⟨[⟨1001, "advisor"⟩, ⟨202, "resident"⟩], [⟨1001, 202⟩]⟩
    1001 202 ⟨1001, "advisor"⟩ (by unfold DbWellFormed; decide) (by decide) rfl (by decide)

theorem cap_ite_le (raw cap : ℚ) : (if raw > cap then cap else raw) ≤ cap := by
  split_ifs with h
  · exact le_refl _
  · exact le_of_not_lt h

theorem dc_projection_bounds (cs tc r : ℚ) (n : ℕ) :
    (dc_projection cs tc r n).projected_balance ≤ cs * min 10 ((n : ℚ) * (1/2)) ∧
    (dc_projection cs tc r n).scenario_10_percent ≤ (11/10) * (cs * min 10 ((n : ℚ) * (1/2))) ∧
    (dc_projection cs tc r n).scenario_20_percent ≤ (12/10) * (cs * min 10 ((n : ℚ) * (1/2))) := by
  unfold dc_projection
  dsimp only
  refine ⟨cap_ite_le _ _, ?_, ?_⟩
  · rw [mul_comm ((11 : ℚ)/10)]
    exact min_le_right _ _
  · rw [mul_comm ((12 : ℚ)/10)]
    exact min_le_right _ _

/-- Claim C4: on a Defined Contribution record with a positive whole-year
horizon, the projected balance returned by `project_pension` is capped by
`current_savings * min(10, n * 0.5)` and the 10%/20% uplift scenarios by
1.1 and 1.2 times that cap. -/
theorem claim_C4_dc_projection_cap (row : PensionRow) (years : ℕ)
    (htype : pyLower (pyOrS row.pension_type "Defined Contribution") ∈ dcTypeNames)
    (hyears : 0 < years) :
    (project_pension_calc row years).projected_balance
        ≤ pyOrQ row.current_savings 0 * min 10 ((years : ℚ) * (1/2)) ∧
    (project_pension_calc row years).scenario_10_percent
        ≤ (11/10) * (pyOrQ row.current_savings 0 * min 10 ((years : ℚ) * (1/2))) ∧
    (project_pension_calc row years).scenario_20_percent
        ≤ (12/10) * (pyOrQ row.current_savings 0 * min 10 ((years : ℚ) * (1/2))) := by
  have hq : ((years : ℚ)) > 0 := by exact_mod_cast hyears
  unfold project_pension_calc
  dsimp only
  rw [if_pos htype, if_pos hq]
  exact dc_projection_bounds _ _ _ _

/-- Witness for C4 at the scenario-1 record with a 10-year horizon. -/
theorem claim_C4_dc_projection_cap_witness :
    (project_pension_calc scenario1Row 10).projected_balance
        ≤ pyOrQ scenario1Row.current_savings 0 * min 10 (((10 : ℕ) : ℚ) * (1/2)) ∧
    (project_pension_calc scenario1Row 10).scenario_10_percent
        ≤ (11/10) * (pyOrQ scenario1Row.current_savings 0 * min 10 (((10 : ℕ) : ℚ) * (1/2))) ∧
    (project_pension_calc scenario1Row 10).scenario_20_percent
        ≤ (12/10) * (pyOrQ scenario1Row.current_savings 0 * min 10 (((10 : ℕ) : ℚ) * (1/2))) :=
  claim_C4_dc_projection_cap scenario1Row 10 (by decide) (by decide)

/-- Claim C5 (code bug): the visualizer's pension-growth curve is NOT
computed with the same return rate as `project_pension` — it hardcodes
9.1% (`visualizer_agent.py` line 152) while the tool uses the record's
(capped) rate — so on the spec's own scenario-1 record the final chart
point exceeds the reported projected balance by far more than 1 000
(≈ £241 584 against ≈ £223 839), contradicting the source's in-code
comments "Use the EXACT same calculation as projection tool … should match
exactly" and triggering its own mismatch warning. -/
theorem project_pension_calc_dc (row : PensionRow) (years : ℕ)
    (htype : pyLower (pyOrS row.pension_type "Defined Contribution") ∈ dcTypeNames)
    (hyears : 0 < years) :
    project_pension_calc row years =
      { years_to_retirement := years
        annual_return_rate := normalized_return_rate row
        projected_balance :=
          (dc_projection (pyOrQ row.current_savings 0)
            (pyOrQ row.contribution_amount 0 + pyOrQ row.employer_contribution 0)
            (normalized_return_rate row) years).projected_balance
        scenario_10_percent :=
          (dc_projection (pyOrQ row.current_savings 0)
            (pyOrQ row.contribution_amount 0 + pyOrQ row.employer_contribution 0)
            (normalized_return_rate row) years).scenario_10_percent
        scenario_20_percent :=
          (dc_projection (pyOrQ row.current_savings 0)
            (pyOrQ row.contribution_amount 0 + pyOrQ row.employer_contribution 0)
            (normalized_return_rate row) years).scenario_20_percent } := by
  have hq : ((years : ℚ)) > 0 := by exact_mod_cast hyears
  unfold project_pension_calc
  dsimp only
  rw [if_pos htype, if_pos hq]

theorem scenario1_normalized_rate : normalized_return_rate scenario1Row = 2/25 := by
  unfold normalized_return_rate raw_return_rate scenario1Row pyOrQ
  norm_num

theorem rate0_normalized_rate : normalized_return_rate rate0Row = 2/25 := by
  unfold normalized_return_rate raw_return_rate rate0Row scenario1Row pyOrQ
  norm_num

theorem claim_C5_visualizer_growth_mismatch :
    1000 < visualizer_growth_value 50000 8000 10
        - (project_pension_calc scenario1Row 10).projected_balance ∧
    (dc_projection 50000 8000 (normalized_return_rate scenario1Row) 10).effective_return_rate
        ≠ (91/1000 : ℚ) := by
  rw [project_pension_calc_dc scenario1Row 10 (by decide) (by decide),
    scenario1_normalized_rate]
  constructor
  · norm_num [visualizer_growth_value, dc_projection, dc_effective_rate, scenario1Row,
      pyOrQ, min_def]
  · norm_num [dc_projection, dc_effective_rate, min_def]

/-- Claim C6 counterexample: on the scenario record and query, the parsed
horizon is exactly 10, but the 7% tier applies only for horizons strictly
greater than 10, so the effective rate is 0.08 — not 0.07 as claimed — and
the projected balance exceeds 220 000, far from the claimed ≈ 208 853. -/
theorem claim_C6_counterexample :
    parse_time_period_from_query scenario1Query 33 65 = 10 ∧
    (dc_projection 50000 8000 (normalized_return_rate scenario1Row) 10).effective_return_rate
        ≠ 7/100 ∧
    220000 < (project_pension_calc scenario1Row 10).projected_balance := by
  rw [project_pension_calc_dc scenario1Row 10 (by decide) (by decide),
    scenario1_normalized_rate]
  refine ⟨by decide, ?_, ?_⟩
  · norm_num [dc_projection, dc_effective_rate, min_def]
  · norm_num [dc_projection, dc_effective_rate, scenario1Row, pyOrQ, min_def]

/-- Claim C6 (amended): the query parses to a 10-year horizon; since the
7% cap applies only when the horizon exceeds 10 years, the effective rate
stays 0.08, and the projected balance is ≈ 223 839, with the 250 000 cap
not hit. -/
theorem claim_C6_scenario_projection :
    parse_time_period_from_query scenario1Query 33 65 = 10 ∧
    (dc_projection 50000 8000 (normalized_return_rate scenario1Row) 10).effective_return_rate
        = 2/25 ∧
    223838 < (project_pension_calc scenario1Row 10).projected_balance ∧
    (project_pension_calc scenario1Row 10).projected_balance < 223839 ∧
    (dc_projection 50000 8000 (normalized_return_rate scenario1Row) 10).cap_hit = false ∧
    (project_pension_calc scenario1Row 10).projected_balance ≤ 250000 := by
  rw [project_pension_calc_dc scenario1Row 10 (by decide) (by decide),
    scenario1_normalized_rate]
  refine ⟨by decide, ?_, ?_, ?_, ?_, ?_⟩ <;>
    norm_num [dc_projection, dc_effective_rate, scenario1Row, pyOrQ, min_def]

/-- Claim C7 counterexample: a record with stored return rate exactly 0 is
projected with the default 0.08 (the Python `or`-default treats 0 as
falsy), so the contributions' future value is the geometric sum at 8% —
not `contribution × n` — and the whole projection coincides with the
rate-0.08 record's. -/
theorem claim_C7_counterexample :
    rate0Row.annual_return_rate = some 0 ∧
    (dc_projection 50000 8000 (normalized_return_rate rate0Row) 10).fv_contributions
        ≠ 8000 * 10 ∧
    (project_pension_calc rate0Row 10).projected_balance
        = (project_pension_calc scenario1Row 10).projected_balance := by
  rw [project_pension_calc_dc rate0Row 10 (by decide) (by decide),
    project_pension_calc_dc scenario1Row 10 (by decide) (by decide),
    scenario1_normalized_rate, rate0_normalized_rate]
  refine ⟨rfl, ?_, ?_⟩
  · norm_num [dc_projection, dc_effective_rate, min_def]
  · norm_num [dc_projection, dc_effective_rate, scenario1Row, rate0Row, pyOrQ, min_def]

/-- Claim C7 (amended): for a record whose stored annual return rate equals
0, the `or`-coalescing replaces it with the default 0.08 before any
arithmetic, so the rate used for the contributions' future value (the
division's denominator) is never 0 at any horizon and no division by zero
occurs; the contribution future value follows the geometric formula at the
defaulted rate rather than `contribution × n`. -/
theorem claim_C7_rate_zero_defaulted (row : PensionRow)
    (h : row.annual_return_rate = some 0) :
    normalized_return_rate row = 8/100 ∧
    ∀ years : ℕ, dc_effective_rate (normalized_return_rate row) years ≠ 0 := by
  have hraw : raw_return_rate row = 8/100 := by
    rw [raw_return_rate, h]
    norm_num [pyOrQ]
  have hnorm : normalized_return_rate row = 8/100 := by
    rw [normalized_return_rate, hraw]
    norm_num
  refine ⟨hnorm, fun years => ?_⟩
  rw [hnorm]
  unfold dc_effective_rate
  split_ifs <;> norm_num [min_def]

/-- Witness for C7 (amended) at the concrete rate-0 record. -/
theorem claim_C7_rate_zero_defaulted_witness :
    normalized_return_rate rate0Row = 8/100 ∧
    ∀ years : ℕ, dc_effective_rate (normalized_return_rate rate0Row) years ≠ 0 :=
  claim_C7_rate_zero_defaulted rate0Row rfl

/-- Claim C8 (code bug): the summarizer's `final_response` is built with
exactly the keys `summary`, `charts`, `plotly_figs`, `chart_images`; even
when a retrieval tool ran (a `query_knowledge_base` observation carrying
`search_type` and `pdf_status` sits in `intermediate_steps`), none of
`data_source`, `search_type`, `pdf_status` is propagated — `main.py`
reads them from `final_response` ("INCLUDE THE DATA SOURCE INDICATORS")
and always gets `None`. -/
theorem claim_C8_summarizer_drops_retrieval_tags (summary_text : String)
    (st : SummarizerState) :
    (summarizer_with_charts summary_text st).data_source = none ∧
    (summarizer_with_charts summary_text st).search_type = none ∧
    (summarizer_with_charts summary_text st).pdf_status = none ∧
    query_knowledge_base_success_step.search_type = some "PDF_DOCUMENT_SEARCH" ∧
    query_knowledge_base_success_step.pdf_status = some "PDFS_FOUND_AND_SEARCHED" :=
  ⟨rfl, rfl, rfl, rfl, rfl⟩

/-- Claim C9 counterexample: at distance `3/2` the reported relevance score
is `-1/2`, which is negative, differs from `max(0, 1 - d) = 0`, and so is
neither the claimed formula nor inside `[0, 1]`. -/
theorem claim_C9_counterexample :
    (kb_search_entry "doc" "src" (3/2)).relevance_score = -(1/2) ∧
    ¬ (0 ≤ (kb_search_entry "doc" "src" (3/2)).relevance_score) ∧
    (kb_search_entry "doc" "src" (3/2)).relevance_score ≠ max 0 (1 - 3/2) := by
  refine ⟨by norm_num [kb_search_entry], by norm_num [kb_search_entry],
    by norm_num [kb_search_entry]⟩

/-- Claim C9 (amended): the retrieval tools report the relevance score as
the unclamped `1 - d`; it lies in `[0, 1]` exactly when the distance does,
and is negative for distances above 1 (`query_knowledge_base` additionally
rounds the same unclamped value to three decimals). -/
theorem claim_C9_relevance_unclamped (doc source : String) (d : ℚ) :
    (kb_search_entry doc source d).relevance_score = 1 - d ∧
    ((0 ≤ (kb_search_entry doc source d).relevance_score ∧
        (kb_search_entry doc source d).relevance_score ≤ 1)
      ↔ (0 ≤ d ∧ d ≤ 1)) := by
  refine ⟨rfl, ?_⟩
  unfold kb_search_entry
  dsimp only
  constructor
  · rintro ⟨h1, h2⟩
    constructor <;> linarith
  · rintro ⟨h1, h2⟩
    constructor <;> linarith

/-- Claim C10: for every input `user_data`, `_fallback_risk_analysis`
returns a risk score in `[0.5, 0.95]`, a level of `Medium` or `High`
(`Low`, which needs a score below 0.4, is unreachable because the score
starts at 0.5 and only gains non-negative increments before the upper
clamp), and confidence 0.6. -/
theorem claim_C10_fallback_risk_bounds (u : RiskUserData) :
    1/2 ≤ (fallback_risk_analysis u).risk_score ∧
    (fallback_risk_analysis u).risk_score ≤ 19/20 ∧
    ((fallback_risk_analysis u).risk_level = "Medium" ∨
      (fallback_risk_analysis u).risk_level = "High") ∧
    (fallback_risk_analysis u).confidence = 6/10 := by
  unfold fallback_risk_analysis
  dsimp only
  split_ifs <;>
    refine ⟨by norm_num [min_def], by norm_num [min_def], ?_, rfl⟩ <;>
    norm_num [min_def] at *

end AegisAI
